import Mathlib

/-!
Verification of the AI-Math-agent core against its design document.

The development shallowly embeds the Python sources:
  * `Core_Agent/mcp_server.py` — the session memory store (`ModularMemoryStore`)
    and the MCP tool handlers;
  * `Core_Agent/agent_clean.py` — the pipeline orchestrator (`CognitiveAgent`);
  * `Core_Agent/perception.py`, `memory.py`, `decision.py`, `action.py` — the
    four stage agents with their fallback responses and, for the Action stage,
    the explicit coercion `_validate_and_fix_result`;
  * `Core_Agent/models.py` — the pydantic record types.

Python numbers are modelled as `ℚ`; the oracle (Gemini) is an abstract
parameter: each stage's oracle call, JSON parse and pydantic construction is
abstracted to an `Except String α` outcome (the `.error` case covers both a
raised exception and unparsable or contract-violating text, all of which the
stage's single try/except turns into its fallback).  Orchestrator functions are
instrumented to return the list of oracle-backed stage invocations they make,
so that "no oracle call is made for stage X" is expressible.
-/

/-! ## Record types (Core_Agent/models.py) -/

/-- `complexity: Literal["simple", "medium", "complex"]`. -/
inductive Complexity
  | simple
  | medium
  | complex
deriving DecidableEq, Repr

/-- `strategy_recommendation: Literal["conservative_approach", "standard_verification", "confident_direct"]`. -/
inductive StrategyRec
  | conservative_approach
  | standard_verification
  | confident_direct
deriving DecidableEq, Repr

/-- `selected_method: Literal["direct_calculation", "standard_with_check", "step_by_step_verification", "conservative_detailed"]`. -/
inductive Method
  | direct_calculation
  | standard_with_check
  | step_by_step_verification
  | conservative_detailed
deriving DecidableEq, Repr

/-- `verification_level: Literal["minimal", "standard", "high", "extra"]`. -/
inductive VerificationLevel
  | minimal
  | standard
  | high
  | extra
deriving DecidableEq, Repr

/-- `risk_assessment: Literal["low", "medium", "high"]`. -/
inductive Risk
  | low
  | medium
  | high
deriving DecidableEq, Repr

/-- `PerceptionOutput` (models.py): the Perception stage's typed output.
`operands` is `List[Union[float, str]]`. -/
structure PerceptionOutput where
  is_valid : Bool
  operands : List (ℚ ⊕ String)
  operators : List String
  complexity : Complexity
  requires_order_ops : Bool
  estimated_difficulty : ℕ
  error_message : Option String
  perception_notes : String
deriving DecidableEq, Repr

/-- `MemoryOutput` (models.py): the Memory stage's typed output. -/
structure MemoryOutput where
  session_success_rate : String
  strategy_recommendation : StrategyRec
  confidence_modifier : ℚ
  similar_problems_found : ℕ
  memory_insights : String
  recommended_approach : String
deriving DecidableEq, Repr

/-- `DecisionOutput` (models.py): the Decision stage's typed output. -/
structure DecisionOutput where
  selected_method : Method
  final_confidence : ℚ
  show_working_steps : Bool
  verification_level : VerificationLevel
  reasoning : String
  execution_strategy : String
  risk_assessment : Risk
deriving DecidableEq, Repr

/-- `ActionOutput` (models.py): the Action stage's typed output. -/
structure ActionOutput where
  result : String
  steps : List String
  confidence : ℚ
  verification : String
  execution_notes : String
deriving DecidableEq, Repr

/-- `MemoryInput` (models.py). -/
structure MemoryInput where
  expression : String
  perception_data : PerceptionOutput
  memory_summary : String
deriving DecidableEq, Repr

/-- `DecisionInput` (models.py). -/
structure DecisionInput where
  expression : String
  perception_data : PerceptionOutput
  memory_data : MemoryOutput
deriving DecidableEq, Repr

/-- `ActionInput` (models.py). -/
structure ActionInput where
  expression : String
  perception_data : PerceptionOutput
  decision_data : DecisionOutput
deriving DecidableEq, Repr

/-- `CognitiveAnalysisResult` (models.py); the `timestamp` field (wall-clock
time, unused by any logic) is omitted from the embedding. -/
structure CognitiveAnalysisResult where
  expression : String
  perception : PerceptionOutput
  memory : MemoryOutput
  decision : DecisionOutput
  action : ActionOutput
  success : Bool
deriving DecidableEq, Repr

/-- `ProblemResult` (models.py): one stored record.  The `timestamp` field
(`datetime.now`, unused by any store logic) is omitted from the embedding. -/
structure ProblemResult where
  problem : String
  result : String
  success : Bool
  strategy_used : Option String
  confidence : Option ℚ
deriving DecidableEq, Repr

/-- `MemoryStatus` (models.py).  `operation_stats` is a Python dict created
with exactly the keys addition/subtraction/multiplication/division; it is
modelled as an association list so that key-set preservation is a real
statement. -/
structure MemoryStatus where
  total_problems : ℕ
  success_count : ℕ
  error_count : ℕ
  success_rate : String
  operation_stats : List (String × ℕ)
  recent_history : List ProblemResult
deriving DecidableEq, Repr

/-- The dict literal initialising `operation_stats` in models.py. -/
def initOperationStats : List (String × ℕ) :=
  [("addition", 0), ("subtraction", 0), ("multiplication", 0), ("division", 0)]

/-- The pydantic defaults of `MemoryStatus` (models.py lines 79-88). -/
def MemoryStatus.default : MemoryStatus :=
  { total_problems := 0
    success_count := 0
    error_count := 0
    success_rate := "0%"
    operation_stats := initOperationStats
    recent_history := [] }

/-- `StoreResultRequest` (models.py). -/
structure StoreResultRequest where
  problem : String
  result : String
  success : Bool
  strategy_used : Option String
  confidence : Option ℚ
deriving DecidableEq, Repr

/-- `StoreResultResponse` (models.py). -/
structure StoreResultResponse where
  status : String
  problem : String
  result : String
  success : Bool
  total_problems : ℕ
deriving DecidableEq, Repr

/-- `ResetMemoryResponse` (models.py). -/
structure ResetMemoryResponse where
  status : String
  message : String
deriving DecidableEq, Repr

/-! ## Session memory store (Core_Agent/mcp_server.py, `ModularMemoryStore`) -/

/-- `ModularMemoryStore.__init__`: empty history and default status. -/
structure ModularMemoryStore where
  session_history : List ProblemResult
  memory_status : MemoryStatus
deriving DecidableEq, Repr

/-- A fresh `ModularMemoryStore()`. -/
def ModularMemoryStore.init : ModularMemoryStore :=
  { session_history := [], memory_status := MemoryStatus.default }

/-! ### IEEE-754 binary64 model

`success_rate` is computed by Python as `(success_count / total_problems) *
100` in double arithmetic and rendered by `f"{...:.1f}"`.  Doubles are exact
rationals of the form `m * 2^k`; the model rounds exact rationals to the
binary64 grid (round to nearest, ties to even, subnormals included), exactly
as CPython's correctly-rounded int/int division, multiplication and decimal
formatting do. -/

/-- Bit length of a natural number using explicit fuel (`n` itself suffices),
so the recursion is structural and kernel-reducible. -/
def bitsFuel : ℕ → ℕ → ℕ
  | 0, _ => 0
  | fuel + 1, n => if n = 0 then 0 else bitsFuel fuel (n / 2) + 1

/-- Bit length: `2^(natBits n - 1) ≤ n < 2^(natBits n)` for `n ≥ 1`. -/
def natBits (n : ℕ) : ℕ :=
  bitsFuel n n

/-- Decides `2^d ≤ q` for a positive rational via integer arithmetic. -/
def pow2Le (d : ℤ) (q : ℚ) : Bool :=
  if 0 ≤ d then decide (q.den * 2 ^ d.toNat ≤ q.num.toNat)
  else decide (q.den ≤ q.num.toNat * 2 ^ (-d).toNat)

/-- `⌊log2 q⌋` for a positive rational. -/
def ratLog2 (q : ℚ) : ℤ :=
  let d : ℤ := (natBits q.num.toNat : ℤ) - (natBits q.den : ℤ)
  if pow2Le d q then d else d - 1

/-- Nearest integer with ties to even. -/
def roundHalfEvenInt (q : ℚ) : ℤ :=
  let fl := q.floor
  let fr := q - (fl : ℚ)
  if fr < 1/2 then fl
  else if (1 : ℚ)/2 < fr then fl + 1
  else if fl % 2 = 0 then fl else fl + 1

/-- Round a non-negative rational to the binary64 magnitude grid (round to
nearest, ties to even; grid step `2^(e-52)` for normal `e`, `2^-1074` for
subnormals; no overflow cutoff — callers check the range). -/
def roundDoubleMag (q : ℚ) : ℚ :=
  if q ≤ 0 then 0
  else
    let e := ratLog2 q
    let prec : ℤ := max (e - 52) (-1074)
    (roundHalfEvenInt (q * (2 : ℚ) ^ (-prec)) : ℚ) * (2 : ℚ) ^ prec

/-- Round a rational to the nearest binary64 value (sign-symmetric). -/
def roundDouble (q : ℚ) : ℚ :=
  if q < 0 then -(roundDoubleMag (-q)) else roundDoubleMag q

/-- Renders a count of tenths-of-a-percent as Python's `f"{rate:.1f}%"` does
once the value has been rounded to tenths. -/
def fmtTenths (tenths : ℕ) : String :=
  toString (tenths / 10) ++ "." ++ toString (tenths % 10) ++ "%"

/-- The exact value of a (non-negative) double rounded to tenths, ties to
even — CPython's `:.1f` formatting is the correctly-rounded decimal
conversion of the double's exact value. -/
def tenthsHalfEven (v : ℚ) : ℕ :=
  (roundHalfEvenInt (10 * v)).toNat

/-- The double `(s / n) * 100` as CPython computes it: correctly-rounded
int/int true division, then a correctly-rounded multiplication by 100. -/
def pyRatePct (s n : ℕ) : ℚ :=
  roundDouble (roundDouble ((s : ℚ) / (n : ℚ)) * 100)

/-- `f"{(success_count / total_problems) * 100:.1f}%"` (mcp_server.py
lines 50-51): the double value of the expression, formatted to one decimal
place. -/
def fmtRate (s n : ℕ) : String :=
  fmtTenths (tenthsHalfEven (pyRatePct s n))

/-- Increment the value stored under `key` (Python `stats[key] += 1`; the key
is always present in the dict, so a map over the entries is faithful). -/
def bumpStat (key : String) (stats : List (String × ℕ)) : List (String × ℕ) :=
  stats.map fun p => if p.1 = key then (p.1, p.2 + 1) else p

/-- Value stored under a key of the stats association list (0 if absent;
the dict always carries the four fixed keys). -/
def statLookup (stats : List (String × ℕ)) (key : String) : ℕ :=
  match stats with
  | [] => 0
  | (k, v) :: rest => if k = key then v else statLookup rest key

/-- `ModularMemoryStore._update_operation_stats` (mcp_server.py lines 110-120):
four independent substring tests, each incrementing its counter.  Every
needle is a single character, so Python's `"+" in problem` is character
membership, and `"x" in problem.lower()` is membership of `x` in the
lowercased characters. -/
def updateOperationStats (problem : String) (stats : List (String × ℕ)) :
    List (String × ℕ) :=
  let chars := problem.toList
  let lowered := chars.map Char.toLower
  let s1 := if chars.contains '+' then bumpStat "addition" stats else stats
  let s2 := if chars.contains '-' then bumpStat "subtraction" s1 else s1
  let s3 :=
    if chars.contains '*' || chars.contains '×' || lowered.contains 'x'
    then bumpStat "multiplication" s2 else s2
  if chars.contains '/' || chars.contains '÷'
  then bumpStat "division" s3 else s3

/-- `ModularMemoryStore.store_result` (mcp_server.py lines 26-65): append the
record, bump the counters, recompute the rate string, update the operation
stats and truncate `recent_history` to the last 10 records
(`self.session_history[-10:]`). -/
def store_result (store : ModularMemoryStore) (request : StoreResultRequest) :
    ModularMemoryStore × StoreResultResponse :=
  let problem_result : ProblemResult :=
    { problem := request.problem
      result := request.result
      success := request.success
      strategy_used := request.strategy_used
      confidence := request.confidence }
  let history := store.session_history ++ [problem_result]
  let total := store.memory_status.total_problems + 1
  let succ :=
    if request.success then store.memory_status.success_count + 1
    else store.memory_status.success_count
  let err :=
    if request.success then store.memory_status.error_count
    else store.memory_status.error_count + 1
  let status : MemoryStatus :=
    { total_problems := total
      success_count := succ
      error_count := err
      success_rate := fmtRate succ total
      operation_stats := updateOperationStats request.problem store.memory_status.operation_stats
      recent_history := history.drop (history.length - 10) }
  ({ session_history := history, memory_status := status },
   { status := "Result stored successfully"
     problem := request.problem
     result := request.result
     success := request.success
     total_problems := total })

/-- `ModularMemoryStore.get_memory_status`: returns the status unchanged. -/
def get_memory_status (store : ModularMemoryStore) : MemoryStatus :=
  store.memory_status

/-- `ModularMemoryStore.reset_memory` (mcp_server.py lines 100-108). -/
def reset_memory (_store : ModularMemoryStore) :
    ModularMemoryStore × ResetMemoryResponse :=
  (ModularMemoryStore.init,
   { status := "Memory reset successfully"
     message := "All learning history cleared. Agent will start fresh with conservative approach." })

/-- `ModularMemoryStore._analyze_recent_trend` (mcp_server.py lines 122-138):
fewer than 2 records is "insufficient data"; otherwise count successes among
`session_history[-5:]` and classify. -/
def analyzeRecentTrend (session_history : List ProblemResult) : String :=
  if session_history.length < 2 then "insufficient data"
  else
    let recent_5 := session_history.drop (session_history.length - 5)
    let recent_successes := (recent_5.filter (fun r => r.success)).length
    if 4 ≤ recent_successes then "strongly improving"
    else if 3 ≤ recent_successes then "improving"
    else if 2 ≤ recent_successes then "mixed"
    else "declining"

/-- Python slice `history[-limit:]` for a non-negative `limit` (with `-0 = 0`
the slice degenerates to `history[0:]`, the whole list). -/
def sliceLast (history : List ProblemResult) (limit : ℕ) : List ProblemResult :=
  if limit = 0 then history else history.drop (history.length - limit)

/-- The `get_recent_history` tool handler (mcp_server.py lines 253-266):
returns the selected window, its length, and the trend over the full
history. -/
def getRecentHistory (store : ModularMemoryStore) (limit : ℕ) :
    List ProblemResult × ℕ × String :=
  let recent_history :=
    if store.session_history.isEmpty then [] else sliceLast store.session_history limit
  (recent_history, recent_history.length, analyzeRecentTrend store.session_history)

/-- The store-state component of one `store_result` call. -/
def stepStore (store : ModularMemoryStore) (request : StoreResultRequest) :
    ModularMemoryStore :=
  (store_result store request).1

/-- Folding a list of requests through `store_result` from a fresh store. -/
def runStore (requests : List StoreResultRequest) : ModularMemoryStore :=
  requests.foldl stepStore ModularMemoryStore.init

/-- The stored form of a request (`ProblemResult(**request fields)`). -/
def toRecord (request : StoreResultRequest) : ProblemResult :=
  { problem := request.problem
    result := request.result
    success := request.success
    strategy_used := request.strategy_used
    confidence := request.confidence }

/-! ## Stage agents (perception.py, memory.py, decision.py, action.py)

Each stage wraps its oracle call, JSON parse and pydantic construction in one
try/except and returns a stage-specific fallback on any error.  The oracle
call together with parsing and construction is abstracted as an
`Except String` outcome fed to the stage. -/

/-- `PerceptionAgent._create_error_response` (perception.py lines 140-152). -/
def perceptionErrorResponse (expression error_msg : String) : PerceptionOutput :=
  { is_valid := false
    operands := []
    operators := []
    complexity := Complexity.simple
    requires_order_ops := false
    estimated_difficulty := 1
    error_message := some ("Perception analysis failed: " ++ error_msg)
    perception_notes :=
      "Failed to analyze expression '" ++ expression ++ "' due to: " ++ error_msg }

/-- `PerceptionAgent.analyze` (perception.py lines 18-46): the oracle outcome
or, on error, the fallback. -/
def PerceptionAgent.analyze (expression : String)
    (outcome : Except String PerceptionOutput) : PerceptionOutput :=
  match outcome with
  | Except.ok r => r
  | Except.error e => perceptionErrorResponse expression e

/-- `MemoryAgent._create_error_response` (memory.py lines 158-168). -/
def memoryErrorResponse (error_msg : String) : MemoryOutput :=
  { session_success_rate := "Error accessing memory: " ++ error_msg
    strategy_recommendation := StrategyRec.conservative_approach
    confidence_modifier := 6/10
    similar_problems_found := 0
    memory_insights :=
      "Memory consultation failed: " ++ error_msg ++ ". Using safe defaults."
    recommended_approach :=
      "Using conservative approach due to memory access issues. Recommend step-by-step verification and careful execution." }

/-- `MemoryAgent.consult` (memory.py lines 19-47). -/
def MemoryAgent.consult (_input : MemoryInput)
    (outcome : Except String MemoryOutput) : MemoryOutput :=
  match outcome with
  | Except.ok r => r
  | Except.error e => memoryErrorResponse e

/-- `DecisionAgent._create_error_response` (decision.py lines 182-193). -/
def decisionErrorResponse (error_msg : String) : DecisionOutput :=
  { selected_method := Method.conservative_detailed
    final_confidence := 1/2
    show_working_steps := true
    verification_level := VerificationLevel.high
    reasoning :=
      "Decision system failed: " ++ error_msg ++ ". Using safe default approach with high verification to ensure accuracy despite system error."
    execution_strategy :=
      "Careful step-by-step approach due to decision error. Will use detailed breakdown and multiple verification methods to compensate for decision system failure."
    risk_assessment := Risk.high }

/-- `DecisionAgent.decide` (decision.py lines 18-46). -/
def DecisionAgent.decide (_input : DecisionInput)
    (outcome : Except String DecisionOutput) : DecisionOutput :=
  match outcome with
  | Except.ok r => r
  | Except.error e => decisionErrorResponse e

/-- `ActionAgent._create_error_response` (action.py lines 208-223). -/
def actionErrorResponse (input_data : ActionInput) (error_msg : String) : ActionOutput :=
  { result := "Error: " ++ error_msg
    steps :=
      ["Action execution failed: " ++ error_msg,
       "Unable to complete mathematical calculation",
       "System error prevented normal execution"]
    confidence := 0
    verification := "Unable to verify due to execution error"
    execution_notes :=
      "Action execution system encountered an error: " ++ error_msg ++ ". " ++
      "The mathematical calculation for '" ++ input_data.expression ++ "' could not be completed. " ++
      "This may be due to system issues, invalid expression format, or other technical problems." }

/-- `ActionAgent.execute` (action.py lines 18-54). -/
def ActionAgent.execute (input_data : ActionInput)
    (outcome : Except String ActionOutput) : ActionOutput :=
  match outcome with
  | Except.ok r => r
  | Except.error e => actionErrorResponse input_data e

/-! ## Pipeline orchestrator (Core_Agent/agent_clean.py, `CognitiveAgent`) -/

/-- Python `s.startswith(p)`, as a character-list prefix test. -/
def pyStartsWith (s p : String) : Bool :=
  p.toList.isPrefixOf s.toList

/-- The abstract oracle: per stage, the outcome of one `generate_content`
call followed by JSON parsing and pydantic construction. -/
structure Oracle where
  perceive : String → Except String PerceptionOutput
  consult : MemoryInput → Except String MemoryOutput
  decide : DecisionInput → Except String DecisionOutput
  act : ActionInput → Except String ActionOutput

/-- One oracle-backed stage invocation, with the input the stage was given. -/
inductive StageCall
  | perception (expression : String)
  | memory (input : MemoryInput)
  | decision (input : DecisionInput)
  | action (input : ActionInput)
deriving DecidableEq, Repr

/-- Python `str(x)` on an `Optional[str]` as interpolated into an f-string. -/
def optionalStr (o : Option String) : String :=
  match o with
  | some s => s
  | none => "None"

/-- `CognitiveAgent._create_error_result` (agent_clean.py lines 267-316): the
synthetic all-stage bundle the orchestrator emits without running
Memory/Decision/Action. -/
def createErrorResult (expression : String) (perception : Option PerceptionOutput)
    (error_type : String) : CognitiveAnalysisResult :=
  let error_perception :=
    match perception with
    | some p => p
    | none =>
      { is_valid := false
        operands := []
        operators := []
        complexity := Complexity.simple
        requires_order_ops := false
        estimated_difficulty := 1
        error_message := some ("Error in " ++ error_type)
        perception_notes := "Analysis failed due to " ++ error_type }
  let error_memory : MemoryOutput :=
    { session_success_rate := "Error - unable to access memory"
      strategy_recommendation := StrategyRec.conservative_approach
      confidence_modifier := 1/2
      similar_problems_found := 0
      memory_insights := "Memory consultation failed due to " ++ error_type
      recommended_approach := "Conservative approach due to system error" }
  let error_decision : DecisionOutput :=
    { selected_method := Method.conservative_detailed
      final_confidence := 0
      show_working_steps := true
      verification_level := VerificationLevel.extra
      reasoning := "System error in " ++ error_type ++ " - using safest approach"
      execution_strategy := "Conservative detailed approach due to system error"
      risk_assessment := Risk.high }
  let error_action : ActionOutput :=
    { result := "Error: " ++ error_type
      steps := ["Analysis failed due to " ++ error_type]
      confidence := 0
      verification := "Cannot verify due to system error"
      execution_notes := "Execution failed due to " ++ error_type }
  { expression := expression
    perception := error_perception
    memory := error_memory
    decision := error_decision
    action := error_action
    success := false }

/-- `CognitiveAgent.analyze` (agent_clean.py lines 74-171), instrumented with
the list of oracle-backed stage invocations.  The outer try/except (the
"system error" safety net) is unreachable in the embedding because every
stage is total, so it is not modelled. -/
def CognitiveAgent.analyze (oracle : Oracle) (expression memory_summary : String) :
    CognitiveAnalysisResult × List StageCall :=
  let perception_result := PerceptionAgent.analyze expression (oracle.perceive expression)
  if perception_result.is_valid then
    let memory_input : MemoryInput :=
      { expression := expression
        perception_data := perception_result
        memory_summary := memory_summary }
    let memory_result := MemoryAgent.consult memory_input (oracle.consult memory_input)
    let decision_input : DecisionInput :=
      { expression := expression
        perception_data := perception_result
        memory_data := memory_result }
    let decision_result := DecisionAgent.decide decision_input (oracle.decide decision_input)
    let action_input : ActionInput :=
      { expression := expression
        perception_data := perception_result
        decision_data := decision_result }
    let action_result := ActionAgent.execute action_input (oracle.act action_input)
    let is_successful := !(pyStartsWith action_result.result "Error")
    ({ expression := expression
       perception := perception_result
       memory := memory_result
       decision := decision_result
       action := action_result
       success := is_successful },
     [StageCall.perception expression, StageCall.memory memory_input,
      StageCall.decision decision_input, StageCall.action action_input])
  else
    (createErrorResult expression (some perception_result) "perception_error",
     [StageCall.perception expression])

/-- The fixed `simple_decision` synthesized by `quick_solve`
(agent_clean.py lines 200-208). -/
def simpleDecision : DecisionOutput :=
  { selected_method := Method.direct_calculation
    final_confidence := 7/10
    show_working_steps := false
    verification_level := VerificationLevel.minimal
    reasoning := "Quick solve mode - using direct calculation"
    execution_strategy := "Fast execution with basic verification"
    risk_assessment := Risk.medium }

/-- `CognitiveAgent.quick_solve` (agent_clean.py lines 173-226), instrumented
with the list of oracle-backed stage invocations. -/
def CognitiveAgent.quick_solve (oracle : Oracle) (expression : String) :
    ActionOutput × List StageCall :=
  let perception_result := PerceptionAgent.analyze expression (oracle.perceive expression)
  if perception_result.is_valid then
    let action_input : ActionInput :=
      { expression := expression
        perception_data := perception_result
        decision_data := simpleDecision }
    (ActionAgent.execute action_input (oracle.act action_input),
     [StageCall.perception expression, StageCall.action action_input])
  else
    ({ result := "Error: " ++ optionalStr perception_result.error_message
       steps := ["Invalid expression"]
       confidence := 0
       verification := "Cannot verify invalid expression"
       execution_notes := "Expression failed perception validation" },
     [StageCall.perception expression])

/-! ## JSON values and the Action-stage coercion
(`ActionAgent._validate_and_fix_result`, action.py lines 225-257)

The parsed oracle map is a JSON object; it is modelled as an association
list of JSON values.  Python's `str()` rendering of numbers and containers is
abbreviated to a definite rendering (the coercion properties under
verification depend on *that* stringification happens, not on the rendered
digits). -/

/-- A JSON value as produced by `json.loads`. -/
inductive JVal
  | str (s : String)
  | num (q : ℚ)
  | bool (b : Bool)
  | null
  | arr (xs : List JVal)
  | obj (fields : List (String × JVal))

/-- Rendering of a number under Python `str()`. -/
def numRepr (q : ℚ) : String :=
  if q.den = 1 then toString q.num else toString q

mutual

/-- Python `repr()` on a JSON-shaped value (string quoting and container
rendering abbreviated). -/
def pyRepr : JVal → String
  | JVal.str s => "'" ++ s ++ "'"
  | JVal.num q => numRepr q
  | JVal.bool b => if b then "True" else "False"
  | JVal.null => "None"
  | JVal.arr xs => "[" ++ pyReprList xs ++ "]"
  | JVal.obj fields => "\x7b" ++ pyReprFields fields ++ "\x7d"

/-- Comma-separated `repr()`s of list elements. -/
def pyReprList : List JVal → String
  | [] => ""
  | [x] => pyRepr x
  | x :: xs => pyRepr x ++ ", " ++ pyReprList xs

/-- Comma-separated `repr()`s of dict entries. -/
def pyReprFields : List (String × JVal) → String
  | [] => ""
  | [(k, v)] => "'" ++ k ++ "': " ++ pyRepr v
  | (k, v) :: fs => "'" ++ k ++ "': " ++ pyRepr v ++ ", " ++ pyReprFields fs

end

/-- An oracle whose every call raises or returns unparsable text. -/
def failOracle : Oracle :=
  { perceive := fun _ => Except.error "boom"
    consult := fun _ => Except.error "boom"
    decide := fun _ => Except.error "boom"
    act := fun _ => Except.error "boom" }

/-- A concrete valid perception output. -/
def validPerception : PerceptionOutput :=
  { is_valid := true
    operands := [Sum.inl 5, Sum.inl 3]
    operators := ["+"]
    complexity := Complexity.simple
    requires_order_ops := false
    estimated_difficulty := 1
    error_message := none
    perception_notes := "basic addition" }

/-- An oracle that answers Perception and Action and fails the middle
stages. -/
def okOracle : Oracle :=
  { perceive := fun _ => Except.ok validPerception
    consult := fun _ => Except.error "boom"
    decide := fun _ => Except.error "boom"
    act := fun _ => Except.ok
      { result := "8"
        steps := ["5 + 3 = 8"]
        confidence := 9/10
        verification := "checked by reverse subtraction"
        execution_notes := "direct calculation" } }

/-- A successful store request. -/
def demoReqA : StoreResultRequest :=
  { problem := "5 + 3", result := "8", success := true
    strategy_used := some "confident_direct", confidence := some (9/10) }

/-- A failing store request. -/
def demoReqB : StoreResultRequest :=
  { problem := "1/0", result := "Error: Division by zero", success := false
    strategy_used := none, confidence := none }

/-- A store holding one record. -/
def demoStore : ModularMemoryStore :=
  { session_history := [toRecord demoReqA], memory_status := MemoryStatus.default }

/-! ## Helper lemmas about the memory store -/

lemma stepStore_session_history (st : ModularMemoryStore) (r : StoreResultRequest) :
    (stepStore st r).session_history = st.session_history ++ [toRecord r] := rfl

lemma stepStore_total (st : ModularMemoryStore) (r : StoreResultRequest) :
    (stepStore st r).memory_status.total_problems
      = st.memory_status.total_problems + 1 := rfl

lemma stepStore_succ (st : ModularMemoryStore) (r : StoreResultRequest) :
    (stepStore st r).memory_status.success_count
      = st.memory_status.success_count + (if r.success then 1 else 0) := by
  by_cases h : r.success <;> simp [stepStore, store_result, h]

lemma stepStore_err (st : ModularMemoryStore) (r : StoreResultRequest) :
    (stepStore st r).memory_status.error_count
      = st.memory_status.error_count + (if r.success then 0 else 1) := by
  by_cases h : r.success <;> simp [stepStore, store_result, h]

lemma stepStore_rate (st : ModularMemoryStore) (r : StoreResultRequest) :
    (stepStore st r).memory_status.success_rate
      = fmtRate (stepStore st r).memory_status.success_count
          (stepStore st r).memory_status.total_problems := rfl

lemma stepStore_recent (st : ModularMemoryStore) (r : StoreResultRequest) :
    (stepStore st r).memory_status.recent_history
      = (stepStore st r).session_history.drop
          ((stepStore st r).session_history.length - 10) := rfl

lemma foldl_store_history (reqs : List StoreResultRequest) (st : ModularMemoryStore) :
    (reqs.foldl stepStore st).session_history
      = st.session_history ++ reqs.map toRecord := by
  induction reqs generalizing st with
  | nil => simp
  | cons r rest ih =>
    simp [List.foldl_cons, ih, stepStore_session_history, List.append_assoc]

lemma foldl_store_total (reqs : List StoreResultRequest) (st : ModularMemoryStore) :
    (reqs.foldl stepStore st).memory_status.total_problems
      = st.memory_status.total_problems + reqs.length := by
  induction reqs generalizing st with
  | nil => simp
  | cons r rest ih =>
    simp [List.foldl_cons, ih, stepStore_total]
    omega

lemma foldl_store_succ (reqs : List StoreResultRequest) (st : ModularMemoryStore) :
    (reqs.foldl stepStore st).memory_status.success_count
      = st.memory_status.success_count
          + (reqs.filter (fun r => r.success)).length := by
  induction reqs generalizing st with
  | nil => simp
  | cons r rest ih =>
    by_cases h : r.success <;>
      simp [List.foldl_cons, ih, stepStore_succ, List.filter_cons, h]
    omega

lemma foldl_store_err (reqs : List StoreResultRequest) (st : ModularMemoryStore) :
    (reqs.foldl stepStore st).memory_status.error_count
      = st.memory_status.error_count
          + (reqs.filter (fun r => !r.success)).length := by
  induction reqs generalizing st with
  | nil => simp
  | cons r rest ih =>
    by_cases h : r.success <;>
      simp [List.foldl_cons, ih, stepStore_err, List.filter_cons, h]
    omega

lemma foldl_store_rate (r : StoreResultRequest) (reqs : List StoreResultRequest)
    (st : ModularMemoryStore) :
    ((r :: reqs).foldl stepStore st).memory_status.success_rate
      = fmtRate ((r :: reqs).foldl stepStore st).memory_status.success_count
          ((r :: reqs).foldl stepStore st).memory_status.total_problems := by
  induction reqs generalizing r st with
  | nil => exact stepStore_rate st r
  | cons r2 rest ih => exact ih r2 (stepStore st r)

lemma foldl_store_recent (r : StoreResultRequest) (reqs : List StoreResultRequest)
    (st : ModularMemoryStore) :
    ((r :: reqs).foldl stepStore st).memory_status.recent_history
      = ((r :: reqs).foldl stepStore st).session_history.drop
          (((r :: reqs).foldl stepStore st).session_history.length - 10) := by
  induction reqs generalizing r st with
  | nil => exact stepStore_recent st r
  | cons r2 rest ih => exact ih r2 (stepStore st r)

lemma length_filter_split (reqs : List StoreResultRequest) :
    (reqs.filter (fun r => r.success)).length
      + (reqs.filter (fun r => !r.success)).length = reqs.length := by
  induction reqs with
  | nil => rfl
  | cons r rest ih =>
    by_cases h : r.success <;> simp [List.filter_cons, h] <;> omega

/-! ## Helper lemmas about operation statistics -/

lemma bumpStat_keys (key : String) (stats : List (String × ℕ)) :
    (bumpStat key stats).map Prod.fst = stats.map Prod.fst := by
  induction stats with
  | nil => rfl
  | cons p rest ih =>
    by_cases h : p.1 = key <;> simp [bumpStat, h] at ih ⊢ <;> exact ih

lemma updateOperationStats_keys (problem : String) (stats : List (String × ℕ)) :
    (updateOperationStats problem stats).map Prod.fst = stats.map Prod.fst := by
  simp only [updateOperationStats]
  split_ifs <;> simp [bumpStat_keys]

lemma bumpStat_cons (key k1 : String) (v1 : ℕ) (rest : List (String × ℕ)) :
    bumpStat key ((k1, v1) :: rest)
      = (if k1 = key then (k1, v1 + 1) else (k1, v1)) :: bumpStat key rest := rfl

lemma statLookup_cons (k1 : String) (v1 : ℕ) (rest : List (String × ℕ)) (k : String) :
    statLookup ((k1, v1) :: rest) k = if k1 = k then v1 else statLookup rest k := rfl

lemma statLookup_bump_le (key : String) (stats : List (String × ℕ)) (k : String) :
    statLookup stats k ≤ statLookup (bumpStat key stats) k := by
  induction stats with
  | nil => exact Nat.le_refl 0
  | cons p rest ih =>
    obtain ⟨k1, v1⟩ := p
    rw [bumpStat_cons, statLookup_cons]
    by_cases h1 : k1 = key
    · rw [if_pos h1, statLookup_cons]
      by_cases h2 : k1 = k
      · rw [if_pos h2, if_pos h2]
        exact Nat.le_succ v1
      · rw [if_neg h2, if_neg h2]
        exact ih
    · rw [if_neg h1, statLookup_cons]
      by_cases h2 : k1 = k
      · rw [if_pos h2, if_pos h2]
      · rw [if_neg h2, if_neg h2]
        exact ih

lemma statLookup_ite_bump_le (c : Prop) [Decidable c] (key : String)
    (stats : List (String × ℕ)) (k : String) :
    statLookup stats k ≤ statLookup (if c then bumpStat key stats else stats) k := by
  split
  · exact statLookup_bump_le key stats k
  · exact Nat.le_refl _

lemma statLookup_update_le (problem : String) (stats : List (String × ℕ))
    (k : String) :
    statLookup stats k ≤ statLookup (updateOperationStats problem stats) k := by
  unfold updateOperationStats
  exact Nat.le_trans (statLookup_ite_bump_le _ "addition" stats k)
    (Nat.le_trans (statLookup_ite_bump_le _ "subtraction" _ k)
      (Nat.le_trans (statLookup_ite_bump_le _ "multiplication" _ k)
        (statLookup_ite_bump_le _ "division" _ k)))

/-! ## Helper lemmas about JSON dict access -/

lemma runStore_total (reqs : List StoreResultRequest) :
    (runStore reqs).memory_status.total_problems = reqs.length := by
  simpa [runStore, ModularMemoryStore.init, MemoryStatus.default] using
    foldl_store_total reqs ModularMemoryStore.init

lemma runStore_succ (reqs : List StoreResultRequest) :
    (runStore reqs).memory_status.success_count
      = (reqs.filter (fun r => r.success)).length := by
  simpa [runStore, ModularMemoryStore.init, MemoryStatus.default] using
    foldl_store_succ reqs ModularMemoryStore.init

lemma runStore_err (reqs : List StoreResultRequest) :
    (runStore reqs).memory_status.error_count
      = (reqs.filter (fun r => !r.success)).length := by
  simpa [runStore, ModularMemoryStore.init, MemoryStatus.default] using
    foldl_store_err reqs ModularMemoryStore.init

lemma runStore_history (reqs : List StoreResultRequest) :
    (runStore reqs).session_history = reqs.map toRecord := by
  simpa [runStore, ModularMemoryStore.init, MemoryStatus.default] using
    foldl_store_history reqs ModularMemoryStore.init

lemma runStore_rate (r : StoreResultRequest) (rest : List StoreResultRequest) :
    (runStore (r :: rest)).memory_status.success_rate
      = fmtRate (runStore (r :: rest)).memory_status.success_count
          (runStore (r :: rest)).memory_status.total_problems :=
  foldl_store_rate r rest ModularMemoryStore.init

lemma runStore_recent (r : StoreResultRequest) (rest : List StoreResultRequest) :
    (runStore (r :: rest)).memory_status.recent_history
      = (runStore (r :: rest)).session_history.drop
          ((runStore (r :: rest)).session_history.length - 10) :=
  foldl_store_recent r rest ModularMemoryStore.init

/-! ## Claim C1 -/

/-- C1 (counterexample): with an oracle that raises during Perception, the
bundle's Memory/Decision components do not carry the values the claim
states — `confidence_modifier` is 0.5 (not 0.6), `final_confidence` is 0.0
(not 0.5) and `verification_level` is `extra` (not `high`), because the
orchestrator synthesizes its own `_create_error_result` values instead of the
stages' fallbacks. -/
theorem C1_counterexample :
    failOracle.perceive "1 + 1" = Except.error "boom" ∧
    ¬ ((CognitiveAgent.analyze failOracle "1 + 1" "memory").1.memory.confidence_modifier
          = 6/10 ∧
       (CognitiveAgent.analyze failOracle "1 + 1" "memory").1.decision.final_confidence
          = 1/2 ∧
       (CognitiveAgent.analyze failOracle "1 + 1" "memory").1.decision.verification_level
          = VerificationLevel.high) := by
  refine ⟨rfl, ?_⟩
  intro hcl
  have h1 := hcl.1
  rw [show (CognitiveAgent.analyze failOracle "1 + 1" "memory").1.memory.confidence_modifier
        = 1/2 from rfl] at h1
  norm_num at h1

/-- C1 (amended): if the oracle raises or returns unparsable text during
Perception, the full-pipeline bundle has `perception.is_valid == false`, its
Memory/Decision/Action components equal the orchestrator's synthesized error
values (Memory: strategy `conservative_approach`, `confidence_modifier=0.5`;
Decision: `conservative_detailed`, `final_confidence=0.0`,
`show_working_steps=true`, `verification_level=extra`; Action: result
prefixed "Error: ", `confidence=0.0`), and no oracle call is made for the
Memory, Decision or Action stages. -/
theorem C1_perception_fallback (oracle : Oracle) (e ms msg : String)
    (h : oracle.perceive e = Except.error msg) :
    ((CognitiveAgent.analyze oracle e ms).1.perception.is_valid = false) ∧
    ((CognitiveAgent.analyze oracle e ms).1.memory.strategy_recommendation
       = StrategyRec.conservative_approach) ∧
    ((CognitiveAgent.analyze oracle e ms).1.memory.confidence_modifier = 1/2) ∧
    ((CognitiveAgent.analyze oracle e ms).1.decision.selected_method
       = Method.conservative_detailed) ∧
    ((CognitiveAgent.analyze oracle e ms).1.decision.final_confidence = 0) ∧
    ((CognitiveAgent.analyze oracle e ms).1.decision.show_working_steps = true) ∧
    ((CognitiveAgent.analyze oracle e ms).1.decision.verification_level
       = VerificationLevel.extra) ∧
    (pyStartsWith (CognitiveAgent.analyze oracle e ms).1.action.result "Error: "
       = true) ∧
    ((CognitiveAgent.analyze oracle e ms).1.action.confidence = 0) ∧
    ((CognitiveAgent.analyze oracle e ms).2 = [StageCall.perception e]) := by
  have heq : CognitiveAgent.analyze oracle e ms
      = (createErrorResult e (some (perceptionErrorResponse e msg)) "perception_error",
         [StageCall.perception e]) := by
    unfold CognitiveAgent.analyze PerceptionAgent.analyze
    rw [h]
    rfl
  rw [heq]
  exact ⟨rfl, rfl, rfl, rfl, rfl, rfl, rfl, rfl, rfl, rfl⟩

/-- C1 (witness): the amended theorem at a concrete failing oracle. -/
theorem C1_perception_fallback_witness :
    ((CognitiveAgent.analyze failOracle "1 + 1" "memory").1.perception.is_valid
       = false) ∧
    ((CognitiveAgent.analyze failOracle "1 + 1" "memory").1.memory.strategy_recommendation
       = StrategyRec.conservative_approach) ∧
    ((CognitiveAgent.analyze failOracle "1 + 1" "memory").1.memory.confidence_modifier
       = 1/2) ∧
    ((CognitiveAgent.analyze failOracle "1 + 1" "memory").1.decision.selected_method
       = Method.conservative_detailed) ∧
    ((CognitiveAgent.analyze failOracle "1 + 1" "memory").1.decision.final_confidence
       = 0) ∧
    ((CognitiveAgent.analyze failOracle "1 + 1" "memory").1.decision.show_working_steps
       = true) ∧
    ((CognitiveAgent.analyze failOracle "1 + 1" "memory").1.decision.verification_level
       = VerificationLevel.extra) ∧
    (pyStartsWith (CognitiveAgent.analyze failOracle "1 + 1" "memory").1.action.result
       "Error: " = true) ∧
    ((CognitiveAgent.analyze failOracle "1 + 1" "memory").1.action.confidence = 0) ∧
    ((CognitiveAgent.analyze failOracle "1 + 1" "memory").2
       = [StageCall.perception "1 + 1"]) :=
  C1_perception_fallback failOracle "1 + 1" "memory" "boom" rfl

/-! ## Claim C2 -/

/-- C2: for every run whose perception is judged valid (so the pipeline
reaches the Action stage), the bundle's `success` flag equals the negation of
`action.result` starting with the literal prefix "Error". -/
theorem C2_success_flag (oracle : Oracle) (e ms : String)
    (h : (PerceptionAgent.analyze e (oracle.perceive e)).is_valid = true) :
    (CognitiveAgent.analyze oracle e ms).1.success
      = !(pyStartsWith (CognitiveAgent.analyze oracle e ms).1.action.result
          "Error") := by
  simp [CognitiveAgent.analyze, h]

/-- C2 (witness): the success flag rule at a concrete oracle whose perception
answer is valid. -/
theorem C2_success_flag_witness :
    (CognitiveAgent.analyze okOracle "5 + 3" "fresh").1.success
      = !(pyStartsWith (CognitiveAgent.analyze okOracle "5 + 3" "fresh").1.action.result
          "Error") :=
  C2_success_flag okOracle "5 + 3" "fresh" rfl

/-! ## Claim C3 -/

/-- C3: after storing N ≥ 1 records of which S succeed, the store counts
`total_problems = N`, `success_count = S`, `error_count = N - S`, and renders
`success_rate` as `100 * S / N` to one decimal place with a trailing `%`. -/
theorem C3_counting (reqs : List StoreResultRequest) (h : reqs ≠ []) :
    ((runStore reqs).memory_status.total_problems = reqs.length) ∧
    ((runStore reqs).memory_status.success_count
       = (reqs.filter (fun r => r.success)).length) ∧
    ((runStore reqs).memory_status.error_count
       = reqs.length - (reqs.filter (fun r => r.success)).length) ∧
    ((runStore reqs).memory_status.success_rate
       = fmtRate (reqs.filter (fun r => r.success)).length reqs.length) := by
  obtain ⟨r, rest, rfl⟩ := List.exists_cons_of_ne_nil h
  have ht := runStore_total (r :: rest)
  have hs := runStore_succ (r :: rest)
  have he := runStore_err (r :: rest)
  have hr := runStore_rate r rest
  have hsplit := length_filter_split (r :: rest)
  refine ⟨ht, hs, ?_, ?_⟩
  · omega
  · rw [hr, ht, hs]

/-- C3 (witness): the counting property after two stores, one success and one
failure. -/
theorem C3_counting_witness :
    ((runStore [demoReqA, demoReqB]).memory_status.total_problems
       = [demoReqA, demoReqB].length) ∧
    ((runStore [demoReqA, demoReqB]).memory_status.success_count
       = ([demoReqA, demoReqB].filter (fun r => r.success)).length) ∧
    ((runStore [demoReqA, demoReqB]).memory_status.error_count
       = [demoReqA, demoReqB].length
           - ([demoReqA, demoReqB].filter (fun r => r.success)).length) ∧
    ((runStore [demoReqA, demoReqB]).memory_status.success_rate
       = fmtRate ([demoReqA, demoReqB].filter (fun r => r.success)).length
           [demoReqA, demoReqB].length) :=
  C3_counting [demoReqA, demoReqB] (List.cons_ne_nil _ _)

/-! ## Claim C4 -/

/-- C4: the store operations preserve the invariant
`success_count + error_count = total_problems`; `store_result` keeps the
`operation_stats` key list unchanged and only ever increments the counts;
`reset_memory` restores the invariant state with the same four keys, all
counts zero; the read-only `get_memory_status` returns the status
unchanged. -/
theorem C4_store_invariants (st : ModularMemoryStore) (r : StoreResultRequest)
    (hinv : st.memory_status.success_count + st.memory_status.error_count
      = st.memory_status.total_problems) :
    ((store_result st r).1.memory_status.success_count
        + (store_result st r).1.memory_status.error_count
      = (store_result st r).1.memory_status.total_problems) ∧
    ((store_result st r).1.memory_status.operation_stats.map Prod.fst
      = st.memory_status.operation_stats.map Prod.fst) ∧
    (∀ k, statLookup st.memory_status.operation_stats k
      ≤ statLookup (store_result st r).1.memory_status.operation_stats k) ∧
    ((reset_memory st).1.memory_status.success_count
        + (reset_memory st).1.memory_status.error_count
      = (reset_memory st).1.memory_status.total_problems) ∧
    ((reset_memory st).1.memory_status.operation_stats = initOperationStats) ∧
    (∀ p ∈ (reset_memory st).1.memory_status.operation_stats, p.2 = 0) ∧
    (get_memory_status st = st.memory_status) := by
  refine ⟨?_, ?_, ?_, rfl, rfl, ?_, rfl⟩
  · have h1 := stepStore_total st r
    have h2 := stepStore_succ st r
    have h3 := stepStore_err st r
    simp only [stepStore] at h1 h2 h3
    by_cases hsu : r.success <;> simp [hsu] at h2 h3 <;> omega
  · exact updateOperationStats_keys r.problem st.memory_status.operation_stats
  · intro k
    exact statLookup_update_le r.problem st.memory_status.operation_stats k
  · intro p hp
    simp [reset_memory, ModularMemoryStore.init, MemoryStatus.default,
      initOperationStats] at hp
    rcases hp with h | h | h | h <;> simp [h]

/-- C4 (witness): the invariant preservation at a fresh store and a concrete
request. -/
theorem C4_store_invariants_witness :
    ((store_result ModularMemoryStore.init demoReqA).1.memory_status.success_count
        + (store_result ModularMemoryStore.init demoReqA).1.memory_status.error_count
      = (store_result ModularMemoryStore.init demoReqA).1.memory_status.total_problems) ∧
    ((store_result ModularMemoryStore.init demoReqA).1.memory_status.operation_stats.map
        Prod.fst
      = ModularMemoryStore.init.memory_status.operation_stats.map Prod.fst) ∧
    (∀ k, statLookup ModularMemoryStore.init.memory_status.operation_stats k
      ≤ statLookup
          (store_result ModularMemoryStore.init demoReqA).1.memory_status.operation_stats
          k) ∧
    ((reset_memory ModularMemoryStore.init).1.memory_status.success_count
        + (reset_memory ModularMemoryStore.init).1.memory_status.error_count
      = (reset_memory ModularMemoryStore.init).1.memory_status.total_problems) ∧
    ((reset_memory ModularMemoryStore.init).1.memory_status.operation_stats
      = initOperationStats) ∧
    (∀ p ∈ (reset_memory ModularMemoryStore.init).1.memory_status.operation_stats,
      p.2 = 0) ∧
    (get_memory_status ModularMemoryStore.init
      = ModularMemoryStore.init.memory_status) :=
  C4_store_invariants ModularMemoryStore.init demoReqA rfl

/-! ## Claim C5 -/

/-- C5: the trend classification returns "insufficient data" when fewer than
2 records exist; otherwise, with `s` the number of successes among the last 5
records, it returns "strongly improving" when `s ≥ 4`, "improving" when
`s = 3`, "mixed" when `s = 2`, and "declining" when `s ≤ 1`. -/
theorem C5_trend_classification (history : List ProblemResult) :
    analyzeRecentTrend history
      = (if history.length < 2 then "insufficient data"
         else
           let s := ((history.drop (history.length - 5)).filter
             (fun r => r.success)).length
           if 4 ≤ s then "strongly improving"
           else if s = 3 then "improving"
           else if s = 2 then "mixed"
           else "declining") := by
  unfold analyzeRecentTrend
  by_cases h2 : history.length < 2
  · simp [h2]
  · simp only [if_neg h2]
    by_cases h4 : 4 ≤ ((history.drop (history.length - 5)).filter
        (fun r => r.success)).length
    · simp [h4]
    · by_cases h3 : 3 ≤ ((history.drop (history.length - 5)).filter
          (fun r => r.success)).length
      · have he : ((history.drop (history.length - 5)).filter
            (fun r => r.success)).length = 3 := by omega
        simp [h4, he]
      · by_cases hm : 2 ≤ ((history.drop (history.length - 5)).filter
            (fun r => r.success)).length
        · have he : ((history.drop (history.length - 5)).filter
              (fun r => r.success)).length = 2 := by omega
          simp [h4, he]
        · have n3 : ((history.drop (history.length - 5)).filter
              (fun r => r.success)).length ≠ 3 := by omega
          have n2 : ((history.drop (history.length - 5)).filter
              (fun r => r.success)).length ≠ 2 := by omega
          simp [h4, h3, hm, n3, n2]

/-! ## Claim C6 -/

/-- C6: after storing 15 records, `recent_history` has length exactly 10 and
is the last 10 stored records in storage order, while the aggregate counters
reflect all 15. -/
theorem C6_recent_window (reqs : List StoreResultRequest) (h : reqs.length = 15) :
    ((runStore reqs).memory_status.recent_history.length = 10) ∧
    ((runStore reqs).memory_status.recent_history = (reqs.map toRecord).drop 5) ∧
    ((runStore reqs).memory_status.total_problems = 15) ∧
    ((runStore reqs).memory_status.success_count
       = (reqs.filter (fun r => r.success)).length) ∧
    ((runStore reqs).memory_status.error_count
       = 15 - (reqs.filter (fun r => r.success)).length) := by
  have hne : reqs ≠ [] := by
    intro he
    rw [he] at h
    simp at h
  obtain ⟨r, rest, rfl⟩ := List.exists_cons_of_ne_nil hne
  have hh := runStore_history (r :: rest)
  have hrec := runStore_recent r rest
  have ht := runStore_total (r :: rest)
  have hs := runStore_succ (r :: rest)
  have he := runStore_err (r :: rest)
  have hsplit := length_filter_split (r :: rest)
  have hlen : ((r :: rest).map toRecord).length = 15 := by
    rw [List.length_map]
    exact h
  have hrec2 : (runStore (r :: rest)).memory_status.recent_history
      = ((r :: rest).map toRecord).drop 5 := by
    rw [hrec, hh, hlen]
  refine ⟨?_, hrec2, ?_, hs, ?_⟩
  · rw [hrec2, List.length_drop, hlen]
  · rw [ht]
    exact h
  · omega

/-- C6 (witness): the window property at 15 copies of a concrete request. -/
theorem C6_recent_window_witness :
    ((runStore (List.replicate 15 demoReqA)).memory_status.recent_history.length
       = 10) ∧
    ((runStore (List.replicate 15 demoReqA)).memory_status.recent_history
       = ((List.replicate 15 demoReqA).map toRecord).drop 5) ∧
    ((runStore (List.replicate 15 demoReqA)).memory_status.total_problems = 15) ∧
    ((runStore (List.replicate 15 demoReqA)).memory_status.success_count
       = ((List.replicate 15 demoReqA).filter (fun r => r.success)).length) ∧
    ((runStore (List.replicate 15 demoReqA)).memory_status.error_count
       = 15 - ((List.replicate 15 demoReqA).filter (fun r => r.success)).length) :=
  C6_recent_window (List.replicate 15 demoReqA) rfl

/-! ## Claim C7 -/

/-- C7: storing one record whose problem text is "3 + 4x5" increments
`operation_stats.addition` and `operation_stats.multiplication` by exactly 1
each (the per-operator substring tests are independent, and the lowercase `x`
counts as a multiplication sign), leaving the other two counts unchanged. -/
theorem C7_double_count (hist : List ProblemResult) (tp sc ec : ℕ) (sr : String)
    (rh : List ProblemResult) (a b c d : ℕ) (res : String) (su : Bool)
    (stg : Option String) (cf : Option ℚ) :
    (store_result
        { session_history := hist
          memory_status :=
            { total_problems := tp, success_count := sc, error_count := ec
              success_rate := sr
              operation_stats :=
                [("addition", a), ("subtraction", b),
                 ("multiplication", c), ("division", d)]
              recent_history := rh } }
        { problem := "3 + 4x5", result := res, success := su
          strategy_used := stg, confidence := cf }).1.memory_status.operation_stats
      = [("addition", a + 1), ("subtraction", b),
         ("multiplication", c + 1), ("division", d)] := by
  rfl

/-! ## Claim C8 -/

/-- C8: for every expression, `quick_solve` invokes the oracle only for the
Perception stage and (when perception judges the expression valid) the Action
stage, supplying Action with the fixed synthesized Decision value
(`direct_calculation`, confidence 0.7, `show_working_steps=false`,
`verification_level=minimal`); the Memory and Decision stages are never
invoked. -/
theorem C8_quick_path (oracle : Oracle) (e : String) :
    (((CognitiveAgent.quick_solve oracle e).2 = [StageCall.perception e]) ∨
     ((CognitiveAgent.quick_solve oracle e).2
        = [StageCall.perception e,
           StageCall.action
             { expression := e
               perception_data := PerceptionAgent.analyze e (oracle.perceive e)
               decision_data := simpleDecision }])) ∧
    (simpleDecision.selected_method = Method.direct_calculation) ∧
    (simpleDecision.final_confidence = 7/10) ∧
    (simpleDecision.show_working_steps = false) ∧
    (simpleDecision.verification_level = VerificationLevel.minimal) := by
  refine ⟨?_, rfl, rfl, rfl, rfl⟩
  by_cases h : (PerceptionAgent.analyze e (oracle.perceive e)).is_valid
  · right
    simp [CognitiveAgent.quick_solve, h]
  · left
    simp [CognitiveAgent.quick_solve, h]

/-! ## Claim C9 -/

/-- C10: on a non-empty session history, the `get_recent_history` tool with
`limit = 0` returns the entire stored history, because the window is the
Python slice `history[-0:] = history[0:]`. -/
theorem C10_zero_limit (st : ModularMemoryStore) (h : st.session_history ≠ []) :
    ((getRecentHistory st 0).1 = st.session_history) ∧
    ((getRecentHistory st 0).2.1 = st.session_history.length) := by
  simp [getRecentHistory, sliceLast, h]

/-- C10 (witness): the zero-limit behaviour at a store holding one record. -/
theorem C10_zero_limit_witness :
    ((getRecentHistory demoStore 0).1 = demoStore.session_history) ∧
    ((getRecentHistory demoStore 0).2.1 = demoStore.session_history.length) :=
  C10_zero_limit demoStore (List.cons_ne_nil _ _)
